import Mathlib

/-!
Verification development for the xcompile native AST serializer
(`src/lib/native.cxx`).  The C++ source walks libclang's cursor tree and
serializes each kept cursor into a plain record.  We shallowly embed the
program: an opaque libclang handle is modelled by the record of the
observations the program makes of it, N-API exceptions are modelled by
`Except String`, and the numeric values of the `CXCursorKind` /
`CXLanguageKind` / `CXTypeKind` enumerations are taken verbatim from
`clang-c/Index.h` of the pinned libclang (LLVM 21 line, the version whose
enumeration contains `CXCursor_OMPStripeDirective` and
`CXCursor_OpenACCCacheConstruct` used by the source).
-/

namespace XCompile

/-! ### Enumeration constants from `clang-c/Index.h` -/

def CXCursor_StructDecl : Nat := 2
def CXCursor_UnionDecl : Nat := 3
def CXCursor_ClassDecl : Nat := 4
def CXCursor_DeclRefExpr : Nat := 101
def CXCursor_CallExpr : Nat := 103
def CXCursor_OMPArrayShapingExpr : Nat := 150
def CXCursor_OMPIteratorExpr : Nat := 151
def CXCursor_OMPParallelDirective : Nat := 232
def CXCursor_SEHLeaveStmt : Nat := 247
def CXCursor_BuiltinBitCastExpr : Nat := 280
def CXCursor_OMPStripeDirective : Nat := 310
def CXCursor_OpenACCComputeConstruct : Nat := 320
def CXCursor_OpenACCCacheConstruct : Nat := 333

/-- `CXLanguage_ObjC` from `clang-c/Index.h` (`CXLanguage_Invalid = 0`,
`CXLanguage_C = 1`, `CXLanguage_ObjC = 2`, `CXLanguage_CPlusPlus = 3`). -/
def CXLanguage_ObjC : Nat := 2

/-- `CXType_Invalid = 0` from `clang-c/Index.h`. -/
def CXType_Invalid : Nat := 0

/-! ### Output data model (§3 of the design: Node / Location / TypeInfo /
ReferenceSummary records built by the serializer) -/

/-- The `type` record: `qualType` plus the optional `desugaredQualType`.
`Option.none` models the field being absent from the object entirely. -/
structure TypeInfo where
  qualType : String
  desugaredQualType : Option String
deriving Repr, DecidableEq

/-- The `loc` record built by `CreateLocation`.  `file` is `none` when the
cursor's location has no associated `CXFile`. -/
structure Loc where
  line : Nat
  col : Nat
  offset : Nat
  tokLen : Nat
  file : Option String
deriving Repr, DecidableEq

/-- The `referencedDecl` record: spelled name of the referenced cursor and
its type info when the referenced cursor's type is valid. -/
structure RefSummary where
  name : String
  type : Option TypeInfo
deriving Repr, DecidableEq

/-- One serialized output node.  `inner` nests recursively, so `Node` is an
inductive rather than a structure. -/
inductive Node where
  | mk (kind : String) (tagUsed : Option String) (id : String) (name : String)
       (loc : Loc) (type : Option TypeInfo) (referencedDecl : Option RefSummary)
       (inner : List Node)

def Node.kind : Node → String
  | .mk k _ _ _ _ _ _ _ => k

def Node.tagUsed : Node → Option String
  | .mk _ t _ _ _ _ _ _ => t

def Node.id : Node → String
  | .mk _ _ i _ _ _ _ _ => i

def Node.name : Node → String
  | .mk _ _ _ n _ _ _ _ => n

def Node.loc : Node → Loc
  | .mk _ _ _ _ l _ _ _ => l

def Node.type : Node → Option TypeInfo
  | .mk _ _ _ _ _ t _ _ => t

def Node.referencedDecl : Node → Option RefSummary
  | .mk _ _ _ _ _ _ r _ => r

def Node.inner : Node → List Node
  | .mk _ _ _ _ _ _ _ i => i

/-! ### The parser-side model.

A `CXType` handle is modelled by the observations `CreateTypeInfo` makes of
it through the libclang type API: its kind tag, its own spelling
(`clang_getTypeSpelling type`), the spelling of its canonical type
(`clang_getTypeSpelling (clang_getCanonicalType type)`), and whether
libclang's type identity test `clang_equalTypes type canonical` holds.
libclang gives no guarantee that two distinct type objects spell
differently (e.g. an elaborated `struct S` sugar node and its canonical
record type both spell `struct S`), so `equalCanonical` and the spelling
fields are independent observations. -/
structure CXTypeM where
  kind : Nat
  spelling : String
  canonicalSpelling : String
  equalCanonical : Bool
deriving Repr, DecidableEq

/-- Observations of `clang_getCursorReferenced cursor` when it is not the
null cursor: its spelling and its type handle. -/
structure RefCursorM where
  spelling : String
  type : CXTypeM
deriving Repr, DecidableEq

/-- The non-recursive observations the visitor makes of one cursor:
null test, kind tag, language tag, USR, spelling, spelling location
(line / column / byte offset / file) and extent-end byte offset, type
handle, and the referenced cursor (for `clang_getCursorReferenced`;
`none` models the null cursor). -/
structure CursorData where
  isNull : Bool
  kind : Nat
  language : Nat
  usr : String
  spelling : String
  line : Nat
  col : Nat
  offset : Nat
  endOffset : Nat
  file : Option String
  type : CXTypeM
  referenced : Option RefCursorM
deriving Repr, DecidableEq

/-- A cursor together with its children in libclang's native
child-visitation order. -/
inductive Cursor where
  | mk (data : CursorData) (children : List Cursor)

def Cursor.data : Cursor → CursorData
  | .mk d _ => d

def Cursor.children : Cursor → List Cursor
  | .mk _ cs => cs

/-! ### `CreateTypeInfo` (native.cxx lines 276–291) -/

/-- Embedding of `CreateTypeInfo`: sets `qualType` to the type's spelling;
then, exactly when `clang_equalTypes(type, clang_getCanonicalType(type))`
is false, sets `desugaredQualType` to the canonical type's spelling. -/
def CreateTypeInfo (t : CXTypeM) : TypeInfo :=
  { qualType := t.spelling
  , desugaredQualType := if t.equalCanonical then none else some t.canonicalSpelling }

/-! ### `CreateLocation` (native.cxx lines 246–274) -/

/-- Embedding of `CreateLocation`: copies line / column / offset from the
spelling location, computes
`length = (long long)endOffset - (long long)offset` exactly (both operands
are 32-bit `unsigned` values, so the `long long` subtraction neither wraps
nor truncates) and stores `tokLen = length > 0 ? length : 0`; `file` is
kept only when the location has an associated file. -/
def CreateLocation (d : CursorData) : Loc :=
  let length : Int := (d.endOffset : Int) - (d.offset : Int)
  { line := d.line
  , col := d.col
  , offset := d.offset
  , tokLen := if length > 0 then length.toNat else 0
  , file := d.file }

/-! ### `GetCursorKindStr` (native.cxx lines 8–244)

The C++ function is a `switch` over `CXCursorKind` with a `default` branch
that asks libclang for `clang_getCursorKindSpelling(kind)`.  A `switch`
with distinct case labels is exactly a first-match association-list
lookup, so we embed the case list verbatim (keys are the `clang-c/Index.h`
numerals, in source order) and the `default` branch as an oracle
parameter `kindSpelling` standing for `clang_getCursorKindSpelling`. -/

def kindTable : List (Nat × String) :=
  [ (2, "RecordDecl")                          -- CXCursor_StructDecl
  , (3, "RecordDecl")                          -- CXCursor_UnionDecl
  , (4, "RecordDecl")                          -- CXCursor_ClassDecl
  , (5, "EnumDecl")                            -- CXCursor_EnumDecl
  , (6, "FieldDecl")                           -- CXCursor_FieldDecl
  , (7, "EnumConstantDecl")                    -- CXCursor_EnumConstantDecl
  , (8, "FunctionDecl")                        -- CXCursor_FunctionDecl
  , (9, "VarDecl")                             -- CXCursor_VarDecl
  , (10, "ParmVarDecl")                        -- CXCursor_ParmDecl
  , (20, "TypedefDecl")                        -- CXCursor_TypedefDecl
  , (21, "CXXMethod")                          -- CXCursor_CXXMethod
  , (22, "NamespaceDecl")                      -- CXCursor_Namespace
  , (24, "CXXConstructorDecl")                 -- CXCursor_Constructor
  , (25, "CXXDestructorDecl")                  -- CXCursor_Destructor
  , (26, "CXXConversionDecl")                  -- CXCursor_ConversionFunction
  , (27, "TemplateTypeParameter")              -- CXCursor_TemplateTypeParameter
  , (28, "NonTypeTemplateParameter")           -- CXCursor_NonTypeTemplateParameter
  , (29, "TemplateTemplateParameter")          -- CXCursor_TemplateTemplateParameter
  , (30, "FunctionTemplate")                   -- CXCursor_FunctionTemplate
  , (31, "ClassTemplate")                      -- CXCursor_ClassTemplate
  , (32, "ClassTemplatePartialSpecialization") -- CXCursor_ClassTemplatePartialSpecialization
  , (33, "NamespaceAlias")                     -- CXCursor_NamespaceAlias
  , (34, "UsingDirective")                     -- CXCursor_UsingDirective
  , (35, "UsingDeclaration")                   -- CXCursor_UsingDeclaration
  , (36, "TypeAliasDecl")                      -- CXCursor_TypeAliasDecl
  , (39, "CXXAccessSpecifier")                 -- CXCursor_CXXAccessSpecifier
  , (43, "TypeRef")                            -- CXCursor_TypeRef
  , (45, "TemplateRef")                        -- CXCursor_TemplateRef
  , (46, "NamespaceRef")                       -- CXCursor_NamespaceRef
  , (47, "MemberRef")                          -- CXCursor_MemberRef
  , (48, "LabelRef")                           -- CXCursor_LabelRef
  , (49, "OverloadedDeclRef")                  -- CXCursor_OverloadedDeclRef
  , (50, "VariableRef")                        -- CXCursor_VariableRef
  , (101, "DeclRefExpr")                       -- CXCursor_DeclRefExpr
  , (102, "MemberExpr")                        -- CXCursor_MemberRefExpr
  , (103, "CallExpr")                          -- CXCursor_CallExpr
  , (105, "BlockExpr")                         -- CXCursor_BlockExpr
  , (106, "IntegerLiteral")                    -- CXCursor_IntegerLiteral
  , (107, "FloatingLiteral")                   -- CXCursor_FloatingLiteral
  , (108, "ImaginaryLiteral")                  -- CXCursor_ImaginaryLiteral
  , (109, "StringLiteral")                     -- CXCursor_StringLiteral
  , (110, "CharacterLiteral")                  -- CXCursor_CharacterLiteral
  , (111, "ParenExpr")                         -- CXCursor_ParenExpr
  , (112, "UnaryOperator")                     -- CXCursor_UnaryOperator
  , (113, "ArraySubscriptExpr")                -- CXCursor_ArraySubscriptExpr
  , (114, "BinaryOperator")                    -- CXCursor_BinaryOperator
  , (115, "CompoundAssignOperator")            -- CXCursor_CompoundAssignOperator
  , (116, "ConditionalOperator")               -- CXCursor_ConditionalOperator
  , (117, "CStyleCastExpr")                    -- CXCursor_CStyleCastExpr
  , (118, "CompoundLiteralExpr")               -- CXCursor_CompoundLiteralExpr
  , (119, "InitListExpr")                      -- CXCursor_InitListExpr
  , (120, "AddrLabelExpr")                     -- CXCursor_AddrLabelExpr
  , (121, "StmtExpr")                          -- CXCursor_StmtExpr
  , (122, "GenericSelectionExpr")              -- CXCursor_GenericSelectionExpr
  , (123, "GNUNullExpr")                       -- CXCursor_GNUNullExpr
  , (124, "CXXStaticCastExpr")                 -- CXCursor_CXXStaticCastExpr
  , (125, "CXXDynamicCastExpr")                -- CXCursor_CXXDynamicCastExpr
  , (126, "CXXReinterpretCastExpr")            -- CXCursor_CXXReinterpretCastExpr
  , (127, "CXXConstCastExpr")                  -- CXCursor_CXXConstCastExpr
  , (128, "CXXFunctionalCastExpr")             -- CXCursor_CXXFunctionalCastExpr
  , (129, "CXXTypeidExpr")                     -- CXCursor_CXXTypeidExpr
  , (130, "CXXBoolLiteralExpr")                -- CXCursor_CXXBoolLiteralExpr
  , (131, "CXXNullPtrLiteralExpr")             -- CXCursor_CXXNullPtrLiteralExpr
  , (132, "CXXThisExpr")                       -- CXCursor_CXXThisExpr
  , (133, "CXXThrowExpr")                      -- CXCursor_CXXThrowExpr
  , (134, "CXXNewExpr")                        -- CXCursor_CXXNewExpr
  , (135, "CXXDeleteExpr")                     -- CXCursor_CXXDeleteExpr
  , (136, "UnaryExpr")                         -- CXCursor_UnaryExpr
  , (142, "PackExpansionExpr")                 -- CXCursor_PackExpansionExpr
  , (143, "SizeOfPackExpr")                    -- CXCursor_SizeOfPackExpr
  , (144, "LambdaExpr")                        -- CXCursor_LambdaExpr
  , (201, "LabelStmt")                         -- CXCursor_LabelStmt
  , (202, "CompoundStmt")                      -- CXCursor_CompoundStmt
  , (203, "CaseStmt")                          -- CXCursor_CaseStmt
  , (204, "DefaultStmt")                       -- CXCursor_DefaultStmt
  , (205, "IfStmt")                            -- CXCursor_IfStmt
  , (206, "SwitchStmt")                        -- CXCursor_SwitchStmt
  , (207, "WhileStmt")                         -- CXCursor_WhileStmt
  , (208, "DoStmt")                            -- CXCursor_DoStmt
  , (209, "ForStmt")                           -- CXCursor_ForStmt
  , (210, "GotoStmt")                          -- CXCursor_GotoStmt
  , (211, "IndirectGotoStmt")                  -- CXCursor_IndirectGotoStmt
  , (212, "ContinueStmt")                      -- CXCursor_ContinueStmt
  , (213, "BreakStmt")                         -- CXCursor_BreakStmt
  , (214, "ReturnStmt")                        -- CXCursor_ReturnStmt
  , (215, "AsmStmt")                           -- CXCursor_AsmStmt
  , (223, "CXXCatchStmt")                      -- CXCursor_CXXCatchStmt
  , (224, "CXXTryStmt")                        -- CXCursor_CXXTryStmt
  , (225, "CXXForRangeStmt")                   -- CXCursor_CXXForRangeStmt
  , (230, "NullStmt")                          -- CXCursor_NullStmt
  , (231, "DeclStmt")                          -- CXCursor_DeclStmt
  , (350, "TranslationUnitDecl")               -- CXCursor_TranslationUnit
  , (400, "UnexposedAttr")                     -- CXCursor_UnexposedAttr
  , (401, "IBActionAttr")                      -- CXCursor_IBActionAttr
  , (402, "IBOutletAttr")                      -- CXCursor_IBOutletAttr
  , (403, "IBOutletCollectionAttr")            -- CXCursor_IBOutletCollectionAttr
  , (404, "CXXFinalAttr")                      -- CXCursor_CXXFinalAttr
  , (405, "CXXOverrideAttr")                   -- CXCursor_CXXOverrideAttr
  , (406, "AnnotateAttr")                      -- CXCursor_AnnotateAttr
  , (407, "AsmLabelAttr")                      -- CXCursor_AsmLabelAttr
  , (408, "PackedAttr")                        -- CXCursor_PackedAttr
  , (409, "PureAttr")                          -- CXCursor_PureAttr
  , (410, "ConstAttr")                         -- CXCursor_ConstAttr
  , (411, "NoDuplicateAttr")                   -- CXCursor_NoDuplicateAttr
  , (412, "CUDAConstantAttr")                  -- CXCursor_CUDAConstantAttr
  , (413, "CUDADeviceAttr")                    -- CXCursor_CUDADeviceAttr
  , (414, "CUDAGlobalAttr")                    -- CXCursor_CUDAGlobalAttr
  , (415, "CUDAHostAttr")                      -- CXCursor_CUDAHostAttr
  , (416, "CUDASharedAttr")                    -- CXCursor_CUDASharedAttr
  , (417, "VisibilityAttr")                    -- CXCursor_VisibilityAttr
  , (418, "DLLExport")                         -- CXCursor_DLLExport
  , (419, "DLLImport")                         -- CXCursor_DLLImport
  ]

/-- Embedding of `GetCursorKindStr`: the `switch` as a first-match lookup
in `kindTable`; the `default` branch returns the parser's own spelling of
the kind (`clang_getCursorKindSpelling`), modelled by the `kindSpelling`
oracle. -/
def GetCursorKindStr (kindSpelling : Nat → String) (kind : Nat) : String :=
  match kindTable.find? (fun p => p.1 == kind) with
  | some p => p.2
  | none => kindSpelling kind

/-! ### `Visit` (native.cxx lines 299–375)

The C++ visitor is a `clang_visitChildren` callback that appends to its
caller's accumulator and always returns `CXChildVisit_Continue`, recursing
manually via a nested `clang_visitChildren` call.  A thrown N-API `Error`
aborts the whole traversal; we model it as `Except String`.  `visitCursor`
is the body of `Visit` for one cursor (returning `none` when the cursor is
skipped and `some node` when a node is appended), and `visitForest` is
`clang_visitChildren` folding `Visit` left-to-right over a child list in
libclang's native order. -/

mutual

def visitCursor (kindSpelling : Nat → String) : Cursor → Except String (Option Node)
  | .mk d children =>
    if d.isNull then .ok none
    else if (CXCursor_OMPParallelDirective ≤ d.kind ∧ d.kind ≤ CXCursor_OMPStripeDirective
              ∧ d.kind ≠ CXCursor_SEHLeaveStmt ∧ d.kind ≠ CXCursor_BuiltinBitCastExpr)
            ∨ d.kind = CXCursor_OMPArrayShapingExpr ∨ d.kind = CXCursor_OMPIteratorExpr then
      .ok none
    else if CXCursor_OpenACCComputeConstruct ≤ d.kind ∧ d.kind ≤ CXCursor_OpenACCCacheConstruct then
      .ok none
    else if d.language = CXLanguage_ObjC then .ok none
    else do
      let tagUsed : Option String :=
        if d.kind = CXCursor_StructDecl then some "struct"
        else if d.kind = CXCursor_UnionDecl then some "union"
        else if d.kind = CXCursor_ClassDecl then some "class"
        else none
      let typeField : Option TypeInfo :=
        if d.type.kind ≠ CXType_Invalid then some (CreateTypeInfo d.type) else none
      let referencedDecl : Option RefSummary ←
        if d.kind = CXCursor_DeclRefExpr ∨ d.kind = CXCursor_CallExpr then
          match d.referenced with
          | none => .error "Referenced cursor is null"
          | some r =>
            .ok (some { name := r.spelling
                      , type := if r.type.kind ≠ CXType_Invalid
                                then some (CreateTypeInfo r.type) else none })
        else .ok none
      let inner ← visitForest kindSpelling children
      .ok (some (Node.mk (GetCursorKindStr kindSpelling d.kind) tagUsed d.usr d.spelling
                         (CreateLocation d) typeField referencedDecl inner))

def visitForest (kindSpelling : Nat → String) : List Cursor → Except String (List Node)
  | [] => .ok []
  | c :: cs => do
    let r ← visitCursor kindSpelling c
    let rs ← visitForest kindSpelling cs
    .ok (match r with
         | none => rs
         | some n => n :: rs)

end

/-! ### `GetClangAST` (native.cxx lines 377–422) -/

/-- What `GetClangAST` leaves behind besides its return value / thrown
error: the two `int` flags it passed to `clang_createIndex`, and whether
`clang_disposeIndex` / `clang_disposeTranslationUnit` were reached on the
taken control path.  (In the C++ source both dispose calls sit after the
traversal, lines 418–419, so a throw at line 409 or a throw escaping
`clang_visitChildren` skips them.) -/
structure ASTCallOutcome where
  result : Except String (List Node)
  indexArgs : Nat × Nat
  indexReleased : Bool
  unitReleased : Bool

/-- The external parser as a function of the caller-supplied file name and
argument list: `none` models `clang_parseTranslationUnit` returning a null
translation unit, `some root` a translation unit whose root cursor
(`clang_getTranslationUnitCursor`) is `root`. -/
def Parser : Type := String → List String → Option Cursor

/-- Embedding of `GetClangAST`: creates the index with
`clang_createIndex(0, 1)` (fixed literals), parses, throws
"Unable to parse translation unit" on a null unit, otherwise runs
`clang_visitChildren(root, Visit, rootCtx)` — i.e. `visitForest` on the
root cursor's children — and only on the path that completes the
traversal reaches `clang_disposeTranslationUnit` and
`clang_disposeIndex`. -/
def GetClangAST (kindSpelling : Nat → String) (parse : Parser)
    (filename : String) (args : List String) : ASTCallOutcome :=
  let indexArgs : Nat × Nat := (0, 1)
  match parse filename args with
  | none =>
    { result := .error "Unable to parse translation unit"
    , indexArgs := indexArgs, indexReleased := false, unitReleased := false }
  | some root =>
    match visitForest kindSpelling root.children with
    | .error e =>
      { result := .error e
      , indexArgs := indexArgs, indexReleased := false, unitReleased := false }
    | .ok rootNodes =>
      { result := .ok rootNodes
      , indexArgs := indexArgs, indexReleased := true, unitReleased := true }

/-! ### Concrete fixtures used by witnesses and counterexamples -/

/-- A sample stand-in for `clang_getCursorKindSpelling`. -/
def kindSpellingSample : Nat → String := fun _ => "UnexposedKind"

/-- An invalid type handle (`CXType_Invalid`). -/
def invalidType : CXTypeM :=
  { kind := 0, spelling := "", canonicalSpelling := "", equalCanonical := true }

/-- Cursor observations for a childless cursor of kind `k` in plain C, with
no file, zero offsets, an invalid type and no referenced cursor. -/
def sampleData (k : Nat) : CursorData :=
  { isNull := false, kind := k, language := 1, usr := "", spelling := ""
  , line := 0, col := 0, offset := 0, endOffset := 0, file := none
  , type := invalidType, referenced := none }

/-- A sugared type handle that is a distinct type object from its
canonical type (`clang_equalTypes` false) yet spells identically — e.g.
an elaborated `struct S` sugar node over the canonical record type. -/
def elaboratedStructS : CXTypeM :=
  { kind := 119, spelling := "struct S", canonicalSpelling := "struct S", equalCanonical := false }

/-- A typedef-sugared type handle whose canonical form spells differently. -/
def typedefIntType : CXTypeM :=
  { kind := 107, spelling := "myint", canonicalSpelling := "int", equalCanonical := false }

/-- The parser failing to produce a translation unit for every input. -/
def parseFail : Parser := fun _ _ => none

/-- A cursor whose extent-end offset precedes its start offset. -/
def shrunkSpan : CursorData :=
  { sampleData 100 with offset := 5, endOffset := 3 }

/-- Modelled from the spec: §4.6 reads the index acquisition as
"diagnostics suppressed", mapped onto `clang_createIndex`'s two `int`
flags; per libclang's interface the second flag is `displayDiagnostics`,
so suppression means that flag is `0`.  (The flag semantics belong to the
external parser, outside `src/`.) -/
def indexDiagnosticsSuppressed (flags : Nat × Nat) : Prop := flags.2 = 0

/-- A `DeclRefExpr` cursor whose referenced cursor is null. -/
def badRefCursor : Cursor := Cursor.mk (sampleData 101) []

/-- A parser whose translation unit root contains `badRefCursor`. -/
def parseBadRef : Parser := fun _ _ => some (Cursor.mk (sampleData 350) [badRefCursor])

/-- A parser producing an empty (childless-root) translation unit. -/
def parseEmptyTU : Parser := fun _ _ => some (Cursor.mk (sampleData 350) [])

/-! ### Derived predicates over the filter and the reference check -/

/-- The kind families cut by the visitor's filtering policy: the
parallel-computing (OMP) pragma range with its two carve-outs, the two
OMP array-shaping / iterator expression kinds, and the accelerator-offload
(OpenACC) pragma range. -/
def skippedKind (k : Nat) : Prop :=
  ((CXCursor_OMPParallelDirective ≤ k ∧ k ≤ CXCursor_OMPStripeDirective
     ∧ k ≠ CXCursor_SEHLeaveStmt ∧ k ≠ CXCursor_BuiltinBitCastExpr)
    ∨ k = CXCursor_OMPArrayShapingExpr ∨ k = CXCursor_OMPIteratorExpr)
  ∨ (CXCursor_OpenACCComputeConstruct ≤ k ∧ k ≤ CXCursor_OpenACCCacheConstruct)

instance (k : Nat) : Decidable (skippedKind k) := by
  unfold skippedKind
  exact inferInstance

/-- A cursor the visitor skips without emitting anything: null cursor,
excluded kind family, or Objective-C language. -/
def cursorSkipped (d : CursorData) : Prop :=
  d.isNull = true ∨ skippedKind d.kind ∨ d.language = CXLanguage_ObjC

instance (d : CursorData) : Decidable (cursorSkipped d) := by
  unfold cursorSkipped
  exact inferInstance

/-- A name-use or call cursor whose referenced cursor is null. -/
def badRefHere (d : CursorData) : Prop :=
  (d.kind = CXCursor_DeclRefExpr ∨ d.kind = CXCursor_CallExpr) ∧ d.referenced = none

instance (d : CursorData) : Decidable (badRefHere d) := by
  unfold badRefHere
  exact inferInstance

mutual

/-- The subtree rooted at this cursor contains, along a path the filter
does not cut, a name-use or call cursor with a null referenced cursor. -/
def hasBadRef : Cursor → Prop
  | .mk d children => ¬ cursorSkipped d ∧ (badRefHere d ∨ hasBadRefList children)

def hasBadRefList : List Cursor → Prop
  | [] => False
  | c :: cs => hasBadRef c ∨ hasBadRefList cs

end

/-! ### Fixtures for the visitor claims -/

/-- A childless `SEHLeaveStmt` cursor (kind 247, inside the OMP range). -/
def sehLeaveCursor : Cursor := Cursor.mk (sampleData 247) []

/-- A childless `BuiltinBitCastExpr` cursor (kind 280, inside the OMP
range). -/
def bitCastCursor : Cursor := Cursor.mk (sampleData 280) []

/-- A childless `OMPParallelDirective` cursor (kind 232). -/
def ompParallelCursor : Cursor := Cursor.mk (sampleData 232) []

/-- A `DeclRefExpr` cursor whose referenced cursor resolves to `foo`. -/
def goodRefCursor : Cursor :=
  Cursor.mk { sampleData 101 with referenced := some { spelling := "foo", type := invalidType } } []

/-- The node the visitor emits for `sehLeaveCursor` under
`kindSpellingSample`. -/
def sehLeaveNode : Node :=
  Node.mk "UnexposedKind" none "" ""
    { line := 0, col := 0, offset := 0, tokLen := 0, file := none } none none []

/-- The node the visitor emits for `goodRefCursor` under
`kindSpellingSample`. -/
def goodRefNode : Node :=
  Node.mk "DeclRefExpr" none "" ""
    { line := 0, col := 0, offset := 0, tokLen := 0, file := none } none
    (some { name := "foo", type := none }) []

/-! ### Small monad-unfolding lemmas for `Except` -/

theorem exceptBind_ok {α β : Type} (a : α) (f : α → Except String β) :
    (Except.ok a >>= f) = f a := rfl

theorem exceptBind_error {α β : Type} (e : String) (f : α → Except String β) :
    ((Except.error e : Except String α) >>= f) = Except.error e := rfl

theorem exceptMap_ok {α β : Type} (g : α → β) (a : α) :
    Except.map g (Except.ok a : Except String α) = Except.ok (g a) := rfl

theorem exceptMap_error {α β : Type} (g : α → β) (e : String) :
    Except.map g (Except.error e : Except String α) = (Except.error e : Except String β) := rfl

/-! ### Claim C1 — `desugaredQualType` presence rule -/

/-- C1: the claim reads `CreateTypeInfo` as including `desugaredQualType`
iff the canonical spelling differs textually from `qualType`.  The code
instead tests `clang_equalTypes`: on a sugared type object that is
distinct from its canonical type yet spells identically (an elaborated
`struct S`), the field is present even though the spellings coincide. -/
theorem xcompile_c1_counterexample :
    ¬ (((CreateTypeInfo elaboratedStructS).desugaredQualType ≠ none)
        ↔ elaboratedStructS.canonicalSpelling ≠ (CreateTypeInfo elaboratedStructS).qualType) := by
  decide

/-- C1 (amended): `desugaredQualType` is present iff `clang_equalTypes`
reports the type distinct from its canonical type, and then holds the
canonical spelling (which may textually coincide with `qualType`); under
the parser fact that equal types spell equally, a differing canonical
spelling still forces the field to be present, and an absent field still
guarantees the spellings coincide — absence is full omission (`none`),
never an empty string. -/
theorem xcompile_c1_desugared_rule (t : CXTypeM)
    (hspell : t.equalCanonical = true → t.canonicalSpelling = t.spelling) :
    (CreateTypeInfo t).qualType = t.spelling
  ∧ ((CreateTypeInfo t).desugaredQualType = none ↔ t.equalCanonical = true)
  ∧ (t.canonicalSpelling ≠ t.spelling → (CreateTypeInfo t).desugaredQualType = some t.canonicalSpelling)
  ∧ ((CreateTypeInfo t).desugaredQualType = none → t.canonicalSpelling = t.spelling) := by
  refine ⟨rfl, ?_, ?_, ?_⟩ <;> cases h : t.equalCanonical <;>
    simp [CreateTypeInfo, h] <;> exact hspell h

/-- Witness for C1 (amended) at a typedef-sugared type. -/
theorem xcompile_c1_desugared_rule_witness :
    (CreateTypeInfo typedefIntType).desugaredQualType = some "int" :=
  (xcompile_c1_desugared_rule typedefIntType (by decide)).2.2.1 (by decide)

/-! ### Claim C7 — `tokLen` arithmetic -/

/-- C7: `tokLen` is `max 0 (endOffset - startOffset)` in exact integer
arithmetic (the source subtracts after widening both `unsigned` offsets to
`long long`, so no wrap occurs), is never negative, and is `0` whenever the
end offset is not strictly greater than the start offset. -/
theorem xcompile_c7_toklen (d : CursorData) :
    ((CreateLocation d).tokLen : Int) = max 0 ((d.endOffset : Int) - (d.offset : Int))
  ∧ (0 : Int) ≤ ((CreateLocation d).tokLen : Int)
  ∧ (d.endOffset ≤ d.offset → (CreateLocation d).tokLen = 0) := by
  refine ⟨?_, Int.natCast_nonneg _, ?_⟩
  · show (((if ((d.endOffset : Int) - (d.offset : Int)) > 0
            then ((d.endOffset : Int) - (d.offset : Int)).toNat else 0) : Nat) : Int) = _
    rcases le_total ((d.endOffset : Int) - (d.offset : Int)) 0 with h | h
    · rw [max_eq_left h]
      split_ifs with hlt
      · omega
      · rfl
    · rw [max_eq_right h]
      split_ifs with hlt
      · rw [Int.toNat_of_nonneg h]
      · omega
  · intro h
    show (if ((d.endOffset : Int) - (d.offset : Int)) > 0
          then ((d.endOffset : Int) - (d.offset : Int)).toNat else 0) = 0
    split_ifs with hlt
    · omega
    · rfl

/-- Witness for C7 at a span whose end offset precedes its start. -/
theorem xcompile_c7_toklen_witness : (CreateLocation shrunkSpan).tokLen = 0 :=
  (xcompile_c7_toklen shrunkSpan).2.2 (by decide)

/-! ### Claim C8 — index configuration flags -/

/-- C8 counterexample: the source calls `clang_createIndex(0, 1)`, i.e.
`displayDiagnostics = 1`: diagnostics are displayed, not suppressed (and
`excludeDeclarationsFromPCH = 0` is not a preamble-reuse switch). -/
theorem xcompile_c8_counterexample :
    (GetClangAST kindSpellingSample parseFail "a.c" []).indexArgs = (0, 1)
  ∧ ¬ indexDiagnosticsSuppressed (GetClangAST kindSpellingSample parseFail "a.c" []).indexArgs := by
  exact ⟨rfl, fun hc => Nat.one_ne_zero hc⟩

/-- C8 (amended): every invocation passes the fixed literals `(0, 1)` to
`clang_createIndex` — `excludeDeclarationsFromPCH = 0`,
`displayDiagnostics = 1` — independent of the caller-supplied file name,
argument list, or parser behaviour. -/
theorem xcompile_c8_index_flags_fixed (ks : Nat → String) (parse : Parser)
    (filename : String) (args : List String) :
    (GetClangAST ks parse filename args).indexArgs = (0, 1) := by
  unfold GetClangAST
  cases parse filename args with
  | none => rfl
  | some root =>
    dsimp only
    cases visitForest ks root.children with
    | error e => rfl
    | ok ns => rfl

/-! ### Claim C9 — parse failure is terminal -/

/-- C9: when the parser yields no translation unit, `GetClangAST` fails
with the parse error and returns no tree at all — not even an empty
sequence. -/
theorem xcompile_c9_parse_failure (ks : Nat → String) (parse : Parser)
    (filename : String) (args : List String) (h : parse filename args = none) :
    (GetClangAST ks parse filename args).result = .error "Unable to parse translation unit"
  ∧ ∀ ns : List Node, (GetClangAST ks parse filename args).result ≠ .ok ns := by
  unfold GetClangAST
  rw [h]
  exact ⟨rfl, fun ns hc => Except.noConfusion hc⟩

/-- Witness for C9 at an always-failing parse (e.g. a nonexistent file). -/
theorem xcompile_c9_parse_failure_witness :
    (GetClangAST kindSpellingSample parseFail "missing.c" []).result
      = .error "Unable to parse translation unit" :=
  (xcompile_c9_parse_failure kindSpellingSample parseFail "missing.c" [] rfl).1

/-! ### Claim C5 — resource release on exit paths -/

/-- C5: the source disposes the index and translation unit only after a
completed traversal (lines 418–419); the parse-failure throw at line 409
precedes `clang_disposeIndex`, and a traversal error propagates out before
either dispose call, so on both failure exit paths the parser session (and
on the second also the translation unit) is leaked, contrary to the
documented always-release design.  On the success path both are
released. -/
theorem xcompile_c5_release_paths :
    ((GetClangAST kindSpellingSample parseFail "missing.c" []).indexReleased = false
      ∧ (GetClangAST kindSpellingSample parseFail "missing.c" []).result
          = .error "Unable to parse translation unit")
  ∧ ((GetClangAST kindSpellingSample parseBadRef "bad.c" []).indexReleased = false
      ∧ (GetClangAST kindSpellingSample parseBadRef "bad.c" []).unitReleased = false
      ∧ (GetClangAST kindSpellingSample parseBadRef "bad.c" []).result
          = .error "Referenced cursor is null")
  ∧ ((GetClangAST kindSpellingSample parseEmptyTU "ok.c" []).indexReleased = true
      ∧ (GetClangAST kindSpellingSample parseEmptyTU "ok.c" []).unitReleased = true) :=
  ⟨⟨rfl, rfl⟩, ⟨rfl, rfl, rfl⟩, rfl, rfl⟩

/-! ### Claim C6 — kind classifier totality -/

set_option maxRecDepth 8192 in
/-- C6: the classifier returns the table's canonical label for every tag
in its lookup table, falls back to the parser's own spelling verbatim for
any other tag, and (the parser's spellings being non-empty) never returns
an empty string. -/
theorem xcompile_c6_classifier_total :
    (∀ (ks : Nat → String), ∀ p ∈ kindTable, GetCursorKindStr ks p.1 = p.2)
  ∧ (∀ (ks : Nat → String) (k : Nat),
      (∀ p ∈ kindTable, p.1 ≠ k) → GetCursorKindStr ks k = ks k)
  ∧ (∀ (ks : Nat → String) (k : Nat), ks k ≠ "" → GetCursorKindStr ks k ≠ "") := by
  have hfind : ∀ p ∈ kindTable, kindTable.find? (fun q => q.1 == p.1) = some p := by
    decide
  have hvals : ∀ p ∈ kindTable, p.2 ≠ "" := by decide
  refine ⟨?_, ?_, ?_⟩
  · intro ks p hp
    unfold GetCursorKindStr
    rw [hfind p hp]
  · intro ks k hk
    unfold GetCursorKindStr
    have hnone : kindTable.find? (fun q => q.1 == k) = none := by
      apply List.find?_eq_none.mpr
      intro q hq
      simpa using hk q hq
    rw [hnone]
  · intro ks k hks
    unfold GetCursorKindStr
    cases hf : kindTable.find? (fun q => q.1 == k) with
    | none => exact hks
    | some p => exact hvals p (List.mem_of_find?_eq_some hf)

/-- Witness for C6: a table tag, a fallback tag, and non-emptiness. -/
theorem xcompile_c6_classifier_total_witness :
    GetCursorKindStr kindSpellingSample 2 = "RecordDecl"
  ∧ GetCursorKindStr kindSpellingSample 999 = kindSpellingSample 999
  ∧ GetCursorKindStr kindSpellingSample 999 ≠ "" :=
  ⟨xcompile_c6_classifier_total.1 kindSpellingSample (2, "RecordDecl") (by decide),
   xcompile_c6_classifier_total.2.1 kindSpellingSample 999 (by decide),
   xcompile_c6_classifier_total.2.2 kindSpellingSample 999 (by decide)⟩

/-! ### Helper lemmas about the visitor -/

theorem visitForest_cons_error (ks : Nat → String) {c : Cursor} {cs : List Cursor}
    {e : String} (h : visitCursor ks c = .error e) :
    visitForest ks (c :: cs) = .error e := by
  simp only [visitForest, h, exceptBind_error]

theorem visitForest_cons_none (ks : Nat → String) {c : Cursor} {cs : List Cursor}
    (h : visitCursor ks c = .ok none) :
    visitForest ks (c :: cs) = visitForest ks cs := by
  simp only [visitForest, h, exceptBind_ok]
  cases hr : visitForest ks cs with
  | error e => rw [exceptBind_error]
  | ok rs => rw [exceptBind_ok]

theorem visitForest_cons_some (ks : Nat → String) {c : Cursor} {cs : List Cursor}
    {n : Node} (h : visitCursor ks c = .ok (some n)) :
    visitForest ks (c :: cs) = (visitForest ks cs) >>= fun rs => .ok (n :: rs) := by
  simp only [visitForest, h, exceptBind_ok]

mutual

theorem visitCursor_error_of_hasBadRef (ks : Nat → String) :
    ∀ c : Cursor, hasBadRef c → ∃ e, visitCursor ks c = .error e
  | .mk d children, h => by
    obtain ⟨hns, hbad⟩ : ¬ cursorSkipped d ∧ (badRefHere d ∨ hasBadRefList children) := h
    have hnull : ¬ (d.isNull = true) := fun hh => hns (Or.inl hh)
    have hsk : ¬ skippedKind d.kind := fun hh => hns (Or.inr (Or.inl hh))
    have hlang : ¬ (d.language = CXLanguage_ObjC) := fun hh => hns (Or.inr (Or.inr hh))
    have homp : ¬ ((CXCursor_OMPParallelDirective ≤ d.kind ∧ d.kind ≤ CXCursor_OMPStripeDirective
        ∧ d.kind ≠ CXCursor_SEHLeaveStmt ∧ d.kind ≠ CXCursor_BuiltinBitCastExpr)
        ∨ d.kind = CXCursor_OMPArrayShapingExpr ∨ d.kind = CXCursor_OMPIteratorExpr) :=
      fun hh => hsk (Or.inl hh)
    have hacc : ¬ (CXCursor_OpenACCComputeConstruct ≤ d.kind
        ∧ d.kind ≤ CXCursor_OpenACCCacheConstruct) :=
      fun hh => hsk (Or.inr hh)
    simp only [visitCursor]
    rw [if_neg hnull, if_neg homp, if_neg hacc, if_neg hlang]
    cases hbad with
    | inl hb =>
      obtain ⟨hrk, hrn⟩ := hb
      refine ⟨"Referenced cursor is null", ?_⟩
      simp only [if_pos hrk, hrn, exceptBind_error]
    | inr hb =>
      obtain ⟨e, hv⟩ := visitForest_error_of_hasBadRefList ks children hb
      by_cases hrk : (d.kind = CXCursor_DeclRefExpr ∨ d.kind = CXCursor_CallExpr)
      · cases hrd : d.referenced with
        | none =>
          refine ⟨"Referenced cursor is null", ?_⟩
          simp only [if_pos hrk, hrd, exceptBind_error]
        | some r =>
          refine ⟨e, ?_⟩
          simp only [if_pos hrk, hrd, exceptBind_ok, hv, exceptBind_error]
      · refine ⟨e, ?_⟩
        simp only [if_neg hrk, exceptBind_ok, hv, exceptBind_error]

theorem visitForest_error_of_hasBadRefList (ks : Nat → String) :
    ∀ cs : List Cursor, hasBadRefList cs → ∃ e, visitForest ks cs = .error e
  | [], h => False.elim h
  | c :: cs, h => by
    have hh : hasBadRef c ∨ hasBadRefList cs := h
    cases hh with
    | inl hc =>
      obtain ⟨e, he⟩ := visitCursor_error_of_hasBadRef ks c hc
      exact ⟨e, visitForest_cons_error ks he⟩
    | inr hcs =>
      obtain ⟨e, he⟩ := visitForest_error_of_hasBadRefList ks cs hcs
      cases hc : visitCursor ks c with
      | error e2 => exact ⟨e2, visitForest_cons_error ks hc⟩
      | ok r =>
        refine ⟨e, ?_⟩
        simp only [visitForest, hc, exceptBind_ok, he, exceptBind_error]

end

theorem visitForest_eq_mapM (ks : Nat → String) :
    ∀ cs : List Cursor,
      visitForest ks cs = Except.map (List.filterMap id) (cs.mapM (visitCursor ks))
  | [] => by
    rw [List.mapM_nil]
    rfl
  | c :: cs => by
    rw [List.mapM_cons]
    cases hc : visitCursor ks c with
    | error e =>
      rw [visitForest_cons_error ks hc]
      simp only [hc, exceptBind_error, exceptMap_error]
    | ok r =>
      cases r with
      | none =>
        rw [visitForest_cons_none ks hc, visitForest_eq_mapM ks cs]
        simp only [hc, exceptBind_ok]
        cases hm : cs.mapM (visitCursor ks) with
        | error e => simp only [exceptBind_error, exceptMap_error]
        | ok xs =>
          simp only [exceptBind_ok]
          show Except.map _ (Except.ok xs) = Except.map _ (Except.ok (none :: xs))
          simp only [exceptMap_ok, List.filterMap_cons, id]
      | some n =>
        rw [visitForest_cons_some ks hc, visitForest_eq_mapM ks cs]
        simp only [hc, exceptBind_ok]
        cases hm : cs.mapM (visitCursor ks) with
        | error e => simp only [exceptBind_error, exceptMap_error]
        | ok xs =>
          simp only [exceptMap_ok, exceptBind_ok]
          show Except.ok (n :: List.filterMap id xs) = Except.map _ (Except.ok (some n :: xs))
          simp only [exceptMap_ok, List.filterMap_cons, id]

/-! ### Claim C2 — pragma-family filtering -/

/-- C2 counterexample: `SEHLeaveStmt` (tag 247) lies inside the excluded
parallel-pragma range and differs from `BuiltinBitCastExpr`, yet the
visitor still emits a Node for it — the range has a second exemption, so
"exactly one exemption" is false. -/
theorem xcompile_c2_counterexample :
    (CXCursor_OMPParallelDirective ≤ CXCursor_SEHLeaveStmt
      ∧ CXCursor_SEHLeaveStmt ≤ CXCursor_OMPStripeDirective
      ∧ CXCursor_SEHLeaveStmt ≠ CXCursor_BuiltinBitCastExpr)
  ∧ visitCursor kindSpellingSample sehLeaveCursor = .ok (some sehLeaveNode) :=
  ⟨by decide, rfl⟩

/-- C2 (amended): a cursor whose kind lies in an excluded pragma family
(the parallel-pragma range minus its carve-outs, the array-shaping and
iterator kinds, or the accelerator-offload range) contributes no Node for
itself or any descendant — a subtree cut; the parallel-pragma range has
exactly two exemptions, `SEHLeaveStmt` and `BuiltinBitCastExpr`, which are
still emitted as Nodes (the latter shown here, the former in the
`SEHLeaveStmt` theorem). -/
theorem xcompile_c2_filter_subtree_cut :
    (∀ (ks : Nat → String) (d : CursorData) (children rest : List Cursor),
      skippedKind d.kind →
      visitCursor ks (Cursor.mk d children) = .ok none
        ∧ visitForest ks (Cursor.mk d children :: rest) = visitForest ks rest)
  ∧ (∀ (ks : Nat → String) (d : CursorData) (children : List Cursor) (inner : List Node),
      d.kind = CXCursor_BuiltinBitCastExpr → d.isNull = false → d.language ≠ CXLanguage_ObjC →
      visitForest ks children = .ok inner →
      ∃ n : Node, visitCursor ks (Cursor.mk d children) = .ok (some n)) := by
  constructor
  · intro ks d children rest hsk
    have hsk' : ((CXCursor_OMPParallelDirective ≤ d.kind ∧ d.kind ≤ CXCursor_OMPStripeDirective
        ∧ d.kind ≠ CXCursor_SEHLeaveStmt ∧ d.kind ≠ CXCursor_BuiltinBitCastExpr)
        ∨ d.kind = CXCursor_OMPArrayShapingExpr ∨ d.kind = CXCursor_OMPIteratorExpr)
        ∨ (CXCursor_OpenACCComputeConstruct ≤ d.kind
            ∧ d.kind ≤ CXCursor_OpenACCCacheConstruct) := hsk
    have h1 : visitCursor ks (Cursor.mk d children) = .ok none := by
      simp only [visitCursor]
      by_cases hnull : d.isNull = true
      · rw [if_pos hnull]
      · rw [if_neg hnull]
        cases hsk' with
        | inl homp => rw [if_pos homp]
        | inr hacc =>
          have homp' : ¬ ((CXCursor_OMPParallelDirective ≤ d.kind
              ∧ d.kind ≤ CXCursor_OMPStripeDirective
              ∧ d.kind ≠ CXCursor_SEHLeaveStmt ∧ d.kind ≠ CXCursor_BuiltinBitCastExpr)
              ∨ d.kind = CXCursor_OMPArrayShapingExpr ∨ d.kind = CXCursor_OMPIteratorExpr) := by
            simp only [CXCursor_OMPParallelDirective, CXCursor_OMPStripeDirective,
              CXCursor_SEHLeaveStmt, CXCursor_BuiltinBitCastExpr, CXCursor_OMPArrayShapingExpr,
              CXCursor_OMPIteratorExpr, CXCursor_OpenACCComputeConstruct,
              CXCursor_OpenACCCacheConstruct] at hacc ⊢
            omega
          rw [if_neg homp', if_pos hacc]
    exact ⟨h1, visitForest_cons_none ks h1⟩
  · intro ks d children inner hk hnull hlang hin
    have hnull' : ¬ (d.isNull = true) := by simp [hnull]
    have homp : ¬ ((CXCursor_OMPParallelDirective ≤ d.kind ∧ d.kind ≤ CXCursor_OMPStripeDirective
        ∧ d.kind ≠ CXCursor_SEHLeaveStmt ∧ d.kind ≠ CXCursor_BuiltinBitCastExpr)
        ∨ d.kind = CXCursor_OMPArrayShapingExpr ∨ d.kind = CXCursor_OMPIteratorExpr) := by
      rw [hk]; decide
    have hacc : ¬ (CXCursor_OpenACCComputeConstruct ≤ d.kind
        ∧ d.kind ≤ CXCursor_OpenACCCacheConstruct) := by
      rw [hk]; decide
    have hrk : ¬ (d.kind = CXCursor_DeclRefExpr ∨ d.kind = CXCursor_CallExpr) := by
      rw [hk]; decide
    have hmain : visitCursor ks (Cursor.mk d children)
        = .ok (some (Node.mk (GetCursorKindStr ks d.kind)
            (if d.kind = CXCursor_StructDecl then some "struct"
             else if d.kind = CXCursor_UnionDecl then some "union"
             else if d.kind = CXCursor_ClassDecl then some "class" else none)
            d.usr d.spelling (CreateLocation d)
            (if d.type.kind ≠ CXType_Invalid then some (CreateTypeInfo d.type) else none)
            none inner)) := by
      simp only [visitCursor]
      rw [if_neg hnull', if_neg homp, if_neg hacc, if_neg hlang, if_neg hrk,
        exceptBind_ok, hin, exceptBind_ok]
    exact ⟨_, hmain⟩

/-- Witness for C2 (amended): an `OMPParallelDirective` cursor is cut and
contributes nothing, while a `BuiltinBitCastExpr` cursor is emitted. -/
theorem xcompile_c2_filter_subtree_cut_witness :
    (visitCursor kindSpellingSample ompParallelCursor = .ok none
      ∧ visitForest kindSpellingSample [ompParallelCursor] = visitForest kindSpellingSample [])
  ∧ ∃ n : Node, visitCursor kindSpellingSample bitCastCursor = .ok (some n) :=
  ⟨xcompile_c2_filter_subtree_cut.1 kindSpellingSample (sampleData 232) [] [] (by decide),
   xcompile_c2_filter_subtree_cut.2 kindSpellingSample (sampleData 280) [] []
     rfl rfl (by decide) rfl⟩

/-! ### Claim C3 — `inner` ordering and completion order -/

/-- C3: the visitor's output sequence is exactly the per-child results in
the parser's native order with the skipped children dropped (`mapM` then
`filterMap` — no reordering, insertion, or deduplication), and a node that
was emitted carries as `inner` precisely the completed traversal of its
children, so the node joins its parent's sequence only after its child
subtree is fully materialized. -/
theorem xcompile_c3_inner_order :
    (∀ (ks : Nat → String) (cs : List Cursor),
      visitForest ks cs = Except.map (List.filterMap id) (cs.mapM (visitCursor ks)))
  ∧ (∀ (ks : Nat → String) (d : CursorData) (children : List Cursor) (n : Node),
      visitCursor ks (Cursor.mk d children) = .ok (some n) →
      visitForest ks children = .ok n.inner) := by
  refine ⟨fun ks cs => visitForest_eq_mapM ks cs, ?_⟩
  intro ks d children n h
  simp only [visitCursor] at h
  by_cases hnull : d.isNull = true
  · rw [if_pos hnull] at h
    exact Option.noConfusion (Except.ok.inj h)
  rw [if_neg hnull] at h
  by_cases homp : ((CXCursor_OMPParallelDirective ≤ d.kind ∧ d.kind ≤ CXCursor_OMPStripeDirective
      ∧ d.kind ≠ CXCursor_SEHLeaveStmt ∧ d.kind ≠ CXCursor_BuiltinBitCastExpr)
      ∨ d.kind = CXCursor_OMPArrayShapingExpr ∨ d.kind = CXCursor_OMPIteratorExpr)
  · rw [if_pos homp] at h
    exact Option.noConfusion (Except.ok.inj h)
  rw [if_neg homp] at h
  by_cases hacc : (CXCursor_OpenACCComputeConstruct ≤ d.kind
      ∧ d.kind ≤ CXCursor_OpenACCCacheConstruct)
  · rw [if_pos hacc] at h
    exact Option.noConfusion (Except.ok.inj h)
  rw [if_neg hacc] at h
  by_cases hobjc : d.language = CXLanguage_ObjC
  · rw [if_pos hobjc] at h
    exact Option.noConfusion (Except.ok.inj h)
  rw [if_neg hobjc] at h
  by_cases hrk : (d.kind = CXCursor_DeclRefExpr ∨ d.kind = CXCursor_CallExpr)
  · simp only [if_pos hrk] at h
    cases hrd : d.referenced with
    | none =>
      simp only [hrd, exceptBind_error] at h
      exact Except.noConfusion h
    | some r =>
      simp only [hrd, exceptBind_ok] at h
      cases hv : visitForest ks children with
      | error e =>
        simp only [hv, exceptBind_error] at h
        exact Except.noConfusion h
      | ok inner =>
        simp only [hv, exceptBind_ok] at h
        have hn := Option.some.inj (Except.ok.inj h)
        subst hn
        rfl
  · simp only [if_neg hrk, exceptBind_ok] at h
    cases hv : visitForest ks children with
    | error e =>
      simp only [hv, exceptBind_error] at h
      exact Except.noConfusion h
    | ok inner =>
      simp only [hv, exceptBind_ok] at h
      have hn := Option.some.inj (Except.ok.inj h)
      subst hn
      rfl

/-- Witness for C3 at the childless `SEHLeaveStmt` cursor. -/
theorem xcompile_c3_inner_order_witness :
    visitForest kindSpellingSample [] = .ok sehLeaveNode.inner :=
  xcompile_c3_inner_order.2 kindSpellingSample (sampleData 247) [] sehLeaveNode rfl

/-! ### Claim C4 — unresolved references are terminal -/

/-- C4: a processed name-use (`DeclRefExpr`) or call (`CallExpr`) cursor
whose referenced cursor is null makes the visitor throw
"Referenced cursor is null"; a translation unit containing such a cursor
along an uncut path makes the whole `GetClangAST` call fail with an error
and return no tree; and every successfully emitted node of those kinds
carries a present `referencedDecl`. -/
theorem xcompile_c4_unresolved_reference :
    (∀ (ks : Nat → String) (d : CursorData) (children : List Cursor),
      d.isNull = false → d.language ≠ CXLanguage_ObjC →
      (d.kind = CXCursor_DeclRefExpr ∨ d.kind = CXCursor_CallExpr) →
      d.referenced = none →
      visitCursor ks (Cursor.mk d children) = .error "Referenced cursor is null")
  ∧ (∀ (ks : Nat → String) (parse : Parser) (filename : String) (args : List String)
      (root : Cursor),
      parse filename args = some root → hasBadRefList root.children →
      (∃ e, (GetClangAST ks parse filename args).result = .error e)
        ∧ ∀ ns : List Node, (GetClangAST ks parse filename args).result ≠ .ok ns)
  ∧ (∀ (ks : Nat → String) (c : Cursor) (n : Node),
      visitCursor ks c = .ok (some n) →
      (c.data.kind = CXCursor_DeclRefExpr ∨ c.data.kind = CXCursor_CallExpr) →
      n.referencedDecl ≠ none) := by
  refine ⟨?_, ?_, ?_⟩
  · intro ks d children hnull hlang hk href
    have hnull' : ¬ (d.isNull = true) := by simp [hnull]
    have homp : ¬ ((CXCursor_OMPParallelDirective ≤ d.kind ∧ d.kind ≤ CXCursor_OMPStripeDirective
        ∧ d.kind ≠ CXCursor_SEHLeaveStmt ∧ d.kind ≠ CXCursor_BuiltinBitCastExpr)
        ∨ d.kind = CXCursor_OMPArrayShapingExpr ∨ d.kind = CXCursor_OMPIteratorExpr) := by
      rcases hk with hk | hk <;> rw [hk] <;> decide
    have hacc : ¬ (CXCursor_OpenACCComputeConstruct ≤ d.kind
        ∧ d.kind ≤ CXCursor_OpenACCCacheConstruct) := by
      rcases hk with hk | hk <;> rw [hk] <;> decide
    simp only [visitCursor]
    rw [if_neg hnull', if_neg homp, if_neg hacc, if_neg hlang]
    simp only [if_pos hk, href, exceptBind_error]
  · intro ks parse filename args root hp hbad
    obtain ⟨e, he⟩ := visitForest_error_of_hasBadRefList ks root.children hbad
    have hres : (GetClangAST ks parse filename args).result = .error e := by
      unfold GetClangAST
      rw [hp]
      dsimp only
      rw [he]
    exact ⟨⟨e, hres⟩, fun ns hns => Except.noConfusion (hres.symm.trans hns)⟩
  · intro ks c n h hk
    cases c with
    | mk d children =>
      dsimp only [Cursor.data] at hk
      simp only [visitCursor] at h
      by_cases hnull : d.isNull = true
      · rw [if_pos hnull] at h
        exact Option.noConfusion (Except.ok.inj h)
      rw [if_neg hnull] at h
      by_cases homp : ((CXCursor_OMPParallelDirective ≤ d.kind
          ∧ d.kind ≤ CXCursor_OMPStripeDirective
          ∧ d.kind ≠ CXCursor_SEHLeaveStmt ∧ d.kind ≠ CXCursor_BuiltinBitCastExpr)
          ∨ d.kind = CXCursor_OMPArrayShapingExpr ∨ d.kind = CXCursor_OMPIteratorExpr)
      · rw [if_pos homp] at h
        exact Option.noConfusion (Except.ok.inj h)
      rw [if_neg homp] at h
      by_cases hacc : (CXCursor_OpenACCComputeConstruct ≤ d.kind
          ∧ d.kind ≤ CXCursor_OpenACCCacheConstruct)
      · rw [if_pos hacc] at h
        exact Option.noConfusion (Except.ok.inj h)
      rw [if_neg hacc] at h
      by_cases hobjc : d.language = CXLanguage_ObjC
      · rw [if_pos hobjc] at h
        exact Option.noConfusion (Except.ok.inj h)
      rw [if_neg hobjc] at h
      simp only [if_pos hk] at h
      cases hrd : d.referenced with
      | none =>
        simp only [hrd, exceptBind_error] at h
        exact Except.noConfusion h
      | some r =>
        simp only [hrd, exceptBind_ok] at h
        cases hv : visitForest ks children with
        | error e =>
          simp only [hv, exceptBind_error] at h
          exact Except.noConfusion h
        | ok inner =>
          simp only [hv, exceptBind_ok] at h
          have hn := Option.some.inj (Except.ok.inj h)
          subst hn
          simp [Node.referencedDecl]

/-- Witness for C4: the failing `DeclRefExpr`, the failing whole call, and
a resolvable `DeclRefExpr` node carrying its `referencedDecl`. -/
theorem xcompile_c4_unresolved_reference_witness :
    visitCursor kindSpellingSample badRefCursor = .error "Referenced cursor is null"
  ∧ (∃ e, (GetClangAST kindSpellingSample parseBadRef "bad.c" []).result = .error e)
  ∧ goodRefNode.referencedDecl ≠ none :=
  ⟨xcompile_c4_unresolved_reference.1 kindSpellingSample (sampleData 101) [] rfl (by decide)
     (Or.inl rfl) rfl,
   (xcompile_c4_unresolved_reference.2.1 kindSpellingSample parseBadRef "bad.c" []
     (Cursor.mk (sampleData 350) [badRefCursor]) rfl
     (Or.inl ⟨by decide, Or.inl ⟨Or.inl rfl, rfl⟩⟩)).1,
   xcompile_c4_unresolved_reference.2.2 kindSpellingSample goodRefCursor goodRefNode rfl
     (Or.inl rfl)⟩

/-! ### Claim C10 — the `SEHLeaveStmt` exemption -/

/-- C10: `SEHLeaveStmt`'s tag lies inside the excluded parallel-pragma
range, yet — like `BuiltinBitCastExpr` — it is carved out of the range
test, so a processed `SEHLeaveStmt` cursor is emitted as a Node rather
than skipped. -/
theorem xcompile_c10_sehleave_kept :
    (CXCursor_OMPParallelDirective ≤ CXCursor_SEHLeaveStmt
      ∧ CXCursor_SEHLeaveStmt ≤ CXCursor_OMPStripeDirective)
  ∧ (∀ (ks : Nat → String) (d : CursorData) (children : List Cursor) (inner : List Node),
      d.kind = CXCursor_SEHLeaveStmt → d.isNull = false → d.language ≠ CXLanguage_ObjC →
      visitForest ks children = .ok inner →
      ∃ n : Node, visitCursor ks (Cursor.mk d children) = .ok (some n)) := by
  refine ⟨by decide, ?_⟩
  intro ks d children inner hk hnull hlang hin
  have hnull' : ¬ (d.isNull = true) := by simp [hnull]
  have homp : ¬ ((CXCursor_OMPParallelDirective ≤ d.kind ∧ d.kind ≤ CXCursor_OMPStripeDirective
      ∧ d.kind ≠ CXCursor_SEHLeaveStmt ∧ d.kind ≠ CXCursor_BuiltinBitCastExpr)
      ∨ d.kind = CXCursor_OMPArrayShapingExpr ∨ d.kind = CXCursor_OMPIteratorExpr) := by
    rw [hk]; decide
  have hacc : ¬ (CXCursor_OpenACCComputeConstruct ≤ d.kind
      ∧ d.kind ≤ CXCursor_OpenACCCacheConstruct) := by
    rw [hk]; decide
  have hrk : ¬ (d.kind = CXCursor_DeclRefExpr ∨ d.kind = CXCursor_CallExpr) := by
    rw [hk]; decide
  have hmain : visitCursor ks (Cursor.mk d children)
      = .ok (some (Node.mk (GetCursorKindStr ks d.kind)
          (if d.kind = CXCursor_StructDecl then some "struct"
           else if d.kind = CXCursor_UnionDecl then some "union"
           else if d.kind = CXCursor_ClassDecl then some "class" else none)
          d.usr d.spelling (CreateLocation d)
          (if d.type.kind ≠ CXType_Invalid then some (CreateTypeInfo d.type) else none)
          none inner)) := by
    simp only [visitCursor]
    rw [if_neg hnull', if_neg homp, if_neg hacc, if_neg hlang, if_neg hrk,
      exceptBind_ok, hin, exceptBind_ok]
  exact ⟨_, hmain⟩

/-- Witness for C10 at the childless `SEHLeaveStmt` cursor. -/
theorem xcompile_c10_sehleave_kept_witness :
    ∃ n : Node, visitCursor kindSpellingSample sehLeaveCursor = .ok (some n) :=
  xcompile_c10_sehleave_kept.2 kindSpellingSample (sampleData 247) [] [] rfl rfl
    (by decide) rfl

end XCompile
